import Mathlib

/-!
# Verification of the astreus-resend-plugin mapping layer

Shallow embedding of the Resend email plugin for the Astreus agent
framework.  The repository has two components:

* `ResendClient` (src/client.ts): holds the gateway configuration,
  formats outbound payloads and normalizes errors around the provider
  SDK call.
* `ResendPlugin` (the tool adapter): builds tool descriptors from a
  static manifest list, converts parameter schemas and dispatches tool
  executions to the client.

JavaScript-specific semantics are modelled explicitly: string
truthiness (the empty string is falsy), object-spread configuration
defaults (a key present with an `undefined` value overrides a spread
default), insertion-ordered `Map` set/delete, and `String.replace`
replacing the first occurrence only.  Outbound wire payloads are
association lists of field names to JS values, mirroring the
`Record<string, any>` objects the code builds.  The single provider
network call is abstracted by passing its outcome as an explicit
parameter; the pre-network phase of each send is factored into a
`...Request` function so that "no network call is attempted" is the
statement that this phase already returns an error.
-/

/-- JS string truthiness for an optional string field: `undefined` and
the empty string are falsy. -/
def jsTruthyStr : Option String → Bool
  | none => false
  | some s => s != ""

/-- JS `a || b` on optional string fields. -/
def jsOr (a b : Option String) : Option String :=
  if jsTruthyStr a then a else b

/-- `string | string[]` recipient-style values (src/types.ts). -/
inductive StrOrList where
  | str (s : String)
  | list (xs : List String)
deriving DecidableEq, Repr

/-- Email attachment (src/types.ts `EmailAttachment`). -/
structure EmailAttachment where
  content : String
  filename : String
  type : Option String
  cid : Option String
deriving DecidableEq, Repr

/-- Email tag (src/types.ts `EmailTag`). -/
structure EmailTag where
  name : String
  value : String
deriving DecidableEq, Repr

/-- A JS runtime value as it appears in an outbound payload object. -/
inductive JsValue where
  | undef
  | str (s : String)
  | strList (xs : List String)
  | attachList (xs : List EmailAttachment)
  | tagList (xs : List EmailTag)
  | record (kvs : List (String × String))
deriving DecidableEq, Repr

/-- Lift an optional string field into a payload value. -/
def optStrVal : Option String → JsValue
  | none => .undef
  | some s => .str s

/-- Lift a `string | string[]` field into a payload value. -/
def optSLVal : Option StrOrList → JsValue
  | none => .undef
  | some (.str s) => .str s
  | some (.list xs) => .strList xs

/-- Lift an attachments field into a payload value. -/
def attVal : Option (List EmailAttachment) → JsValue
  | none => .undef
  | some xs => .attachList xs

/-- Lift a tags field into a payload value. -/
def tagVal : Option (List EmailTag) → JsValue
  | none => .undef
  | some xs => .tagList xs

/-- The resolved gateway configuration held by `ResendClient`
(src/types.ts `ResendConfig`, after the constructor merge). -/
structure ResendConfig where
  apiKey : Option String
  defaultFrom : Option String
  defaultReplyTo : Option String
  requestTimeout : Option Nat
deriving DecidableEq, Repr

/-- A configuration object as passed to the constructor: each key is
either absent (`none`), present with an undefined value (`some none`),
or present with a value (`some (some v)`).  The distinction matters
because JS object spread copies present-but-undefined keys. -/
structure ResendConfigInput where
  apiKey : Option (Option String)
  defaultFrom : Option (Option String)
  defaultReplyTo : Option (Option String)
  requestTimeout : Option (Option Nat)
deriving DecidableEq, Repr

/-- JS object-spread of one overriding key over a base key:
`{ base..., over... }` keeps the override whenever the key is present,
even when its value is `undefined`. -/
def spreadField {α : Type} (base : Option α) (over : Option (Option α)) : Option α :=
  match over with
  | some v => v
  | none => base

/-- The `ResendClient` constructor merge
`{ defaultFrom: 'onboarding@resend.dev', requestTimeout: 10000, ...config }`
(src/client.ts lines 21-33). -/
def mkResendConfig (c : ResendConfigInput) : ResendConfig :=
  { apiKey := spreadField none c.apiKey
    defaultFrom := spreadField (some "onboarding@resend.dev") c.defaultFrom
    defaultReplyTo := spreadField none c.defaultReplyTo
    requestTimeout := spreadField (some 10000) c.requestTimeout }

/-- `ResendClient.isConfigured`: `!!this.config.apiKey`. -/
def isConfigured (cfg : ResendConfig) : Bool :=
  jsTruthyStr cfg.apiKey

/-- Options accepted by `sendEmail` (src/types.ts `EmailMessageOptions`).
`to` and `subject` are required by the TypeScript type but can be
`undefined` at runtime when the options object is built from a loosely
typed parameter record, so they are modelled as optional. -/
structure EmailMessageOptions where
  «to» : Option StrOrList
  subject : Option String
  html : Option String
  text : Option String
  «from» : Option String
  replyTo : Option String
  cc : Option StrOrList
  bcc : Option StrOrList
  attachments : Option (List EmailAttachment)
  tags : Option (List EmailTag)
deriving DecidableEq, Repr

/-- Options accepted by `sendTemplateEmail`
(src/types.ts `TemplateEmailOptions`). -/
structure TemplateEmailOptions where
  «to» : Option StrOrList
  templateId : Option String
  templateData : List (String × String)
  «from» : Option String
  replyTo : Option String
  cc : Option StrOrList
  bcc : Option StrOrList
  tags : Option (List EmailTag)
deriving DecidableEq, Repr

/-- `ResendClient.formatEmailOptions` (src/client.ts lines 48-61): the
outbound wire payload for a raw send, as an ordered field list. -/
def formatEmailOptions (cfg : ResendConfig) (o : EmailMessageOptions) :
    List (String × JsValue) :=
  [ ("from", optStrVal (jsOr o.«from» cfg.defaultFrom))
  , ("to", optSLVal o.«to»)
  , ("subject", optStrVal o.subject)
  , ("html", optStrVal o.html)
  , ("text", optStrVal o.text)
  , ("reply_to", optStrVal (jsOr o.replyTo cfg.defaultReplyTo))
  , ("cc", optSLVal o.cc)
  , ("bcc", optSLVal o.bcc)
  , ("attachments", attVal o.attachments)
  , ("tags", tagVal o.tags) ]

/-- The wire payload built inline by `sendTemplateEmail`
(src/client.ts lines 113-124). -/
def formatTemplateOptions (cfg : ResendConfig) (o : TemplateEmailOptions) :
    List (String × JsValue) :=
  [ ("from", optStrVal (jsOr o.«from» cfg.defaultFrom))
  , ("to", optSLVal o.«to»)
  , ("reply_to", optStrVal (jsOr o.replyTo cfg.defaultReplyTo))
  , ("cc", optSLVal o.cc)
  , ("bcc", optSLVal o.bcc)
  , ("tags", tagVal o.tags)
  , ("template", optStrVal o.templateId)
  , ("data", .record o.templateData) ]

/-- Error message thrown when the API key is missing (src/client.ts). -/
def apiKeyMissingMsg : String :=
  "Resend API key not configured. Please set RESEND_API_KEY in your environment or pass it in the constructor."

/-- Error message thrown when neither html nor text is provided. -/
def bodyMissingMsg : String :=
  "Either html or text content must be provided for the email."

/-- Error message thrown when a template id is missing. -/
def templateIdMissingMsg : String :=
  "Template ID must be provided for template emails."

/-- Error message for a send whose provider response had no usable id. -/
def noResponseMsg : String :=
  "Failed to send email: No response from Resend API"

/-- Error message for a template send whose response had no usable id. -/
def noTemplateResponseMsg : String :=
  "Failed to send template email: No response from Resend API"

/-- Pre-network phase of `ResendClient.sendEmail` (src/client.ts lines
68-81): the configuration check, then the body-content check, then the
payload that would be handed to the provider SDK.  An `error` result
means the send fails before any network call is attempted. -/
def sendEmailRequest (cfg : ResendConfig) (o : EmailMessageOptions) :
    Except String (List (String × JsValue)) :=
  if !isConfigured cfg then
    .error apiKeyMissingMsg
  else if !jsTruthyStr o.html && !jsTruthyStr o.text then
    .error bodyMissingMsg
  else
    .ok (formatEmailOptions cfg o)

/-- Pre-network phase of `ResendClient.sendTemplateEmail`
(src/client.ts lines 105-124). -/
def sendTemplateEmailRequest (cfg : ResendConfig) (o : TemplateEmailOptions) :
    Except String (List (String × JsValue)) :=
  if !isConfigured cfg then
    .error apiKeyMissingMsg
  else if !jsTruthyStr o.templateId then
    .error templateIdMissingMsg
  else
    .ok (formatTemplateOptions cfg o)

/-- The `data` part of a provider response. -/
structure ProviderData where
  id : String
deriving DecidableEq, Repr

/-- A provider response object (`response.data?.id` is consulted). -/
structure ProviderResponse where
  data : Option ProviderData
deriving DecidableEq, Repr

/-- The provider call outcome: a transport-level failure carrying a
message, or a possibly-null response object. -/
abbrev ProviderOutcome := Except String (Option ProviderResponse)

/-- Truthiness of `response.data?.id`: the response exists, has a data
object and a non-empty id. -/
def hasUsableId : Option ProviderResponse → Bool
  | none => false
  | some r =>
    match r.data with
    | none => false
    | some d => d.id != ""

/-- Send result returned to callers (src/types.ts `EmailResponse`). -/
structure EmailResponse where
  id : String
  success : Bool
deriving DecidableEq, Repr

/-- Post-network phase shared by both sends: the
`!response || !response.data?.id` check and result construction. -/
def handleProviderResponse (pr : ProviderOutcome) (noRespMsg : String) :
    Except String EmailResponse :=
  match pr with
  | .error m => .error m
  | .ok resp =>
    if hasUsableId resp then
      match resp with
      | some r =>
        match r.data with
        | some d => .ok { id := d.id, success := true }
        | none => .error noRespMsg
      | none => .error noRespMsg
    else
      .error noRespMsg

/-- `ResendClient.sendEmail` (src/client.ts lines 68-96).  The provider
SDK call is abstracted by its outcome `pr`; the surrounding try/catch
re-raises every failure as `Failed to send email: <message>`. -/
def sendEmail (cfg : ResendConfig) (o : EmailMessageOptions)
    (pr : ProviderOutcome) : Except String EmailResponse :=
  let body : Except String EmailResponse :=
    match sendEmailRequest cfg o with
    | .error m => .error m
    | .ok _ => handleProviderResponse pr noResponseMsg
  match body with
  | .ok v => .ok v
  | .error m => .error ("Failed to send email: " ++ m)

/-- `ResendClient.sendTemplateEmail` (src/client.ts lines 103-140). -/
def sendTemplateEmail (cfg : ResendConfig) (o : TemplateEmailOptions)
    (pr : ProviderOutcome) : Except String EmailResponse :=
  let body : Except String EmailResponse :=
    match sendTemplateEmailRequest cfg o with
    | .error m => .error m
    | .ok _ => handleProviderResponse pr noTemplateResponseMsg
  match body with
  | .ok v => .ok v
  | .error m => .error ("Failed to send template email: " ++ m)


/-! ## Tool adapter (`ResendPlugin`) -/

/-- One property of a manifest parameter schema: declared type and
description may be absent at runtime. -/
structure ManifestProperty where
  name : String
  type : Option String
  description : Option String
deriving DecidableEq, Repr

/-- An OpenAPI-style manifest parameter block
(`{type, properties, required}`). -/
structure ManifestParams where
  type : String
  properties : Option (List ManifestProperty)
  required : Option (List String)
deriving DecidableEq, Repr

/-- A tool manifest entry as returned by `getManifests`. -/
structure Manifest where
  name : String
  description : String
  parameters : ManifestParams
deriving DecidableEq, Repr

/-- An Astreus `ToolParameterSchema` descriptor entry. -/
structure ToolParameterSchema where
  name : String
  type : String
  description : String
  required : Bool
deriving DecidableEq, Repr

/-- A registered tool descriptor (the Astreus `Plugin` object without
its execute closure, whose behaviour is modelled by `executeTool`). -/
structure Tool where
  name : String
  description : String
  parameters : List ToolParameterSchema
deriving DecidableEq, Repr

/-- The loop body of `ResendPlugin.convertParameters` for one property:
the lenient type fallback to `"string"`, the empty-string default
description, and the required flag from the `required` list. -/
def convertParameter (required : Option (List String)) (pr : ManifestProperty) :
    ToolParameterSchema :=
  { name := pr.name
    type :=
      match pr.type with
      | some t =>
        if ["string", "number", "boolean", "object", "array"].contains t
        then t else "string"
      | none => "string"
    description :=
      match pr.description with
      | some d => d
      | none => ""
    required :=
      match required with
      | some r => r.contains pr.name
      | none => false }

/-- `ResendPlugin.convertParameters`: one descriptor entry per
property. -/
def convertParameters (params : Option ManifestParams) : List ToolParameterSchema :=
  match params with
  | none => []
  | some p =>
    match p.properties with
    | none => []
    | some props => props.map (convertParameter p.required)

/-- The static manifest for the raw-send tool (`resend_send_email`). -/
def sendEmailManifest : Manifest :=
  { name := "resend_send_email"
    description := "Send an email using Resend"
    parameters :=
      { type := "object"
        properties := some
          [ { name := "to", type := some "string",
              description := some "Recipient email address or comma-separated list of addresses" }
          , { name := "subject", type := some "string",
              description := some "Email subject line" }
          , { name := "html", type := some "string",
              description := some "HTML content of the email" }
          , { name := "text", type := some "string",
              description := some "Plain text content of the email" }
          , { name := "from", type := some "string",
              description := some "Sender email address (overrides default)" }
          , { name := "replyTo", type := some "string",
              description := some "Reply-to email address (overrides default)" }
          , { name := "cc", type := some "string",
              description := some "CC email address or comma-separated list of addresses" }
          , { name := "bcc", type := some "string",
              description := some "BCC email address or comma-separated list of addresses" } ]
        required := some ["to", "subject"] } }

/-- The static manifest for the templated-send tool
(`resend_send_template_email`). -/
def sendTemplateEmailManifest : Manifest :=
  { name := "resend_send_template_email"
    description := "Send an email using a Resend template"
    parameters :=
      { type := "object"
        properties := some
          [ { name := "to", type := some "string",
              description := some "Recipient email address or comma-separated list of addresses" }
          , { name := "templateId", type := some "string",
              description := some "ID of the email template to use" }
          , { name := "templateData", type := some "object",
              description := some "Data to populate the template with" }
          , { name := "from", type := some "string",
              description := some "Sender email address (overrides default)" }
          , { name := "replyTo", type := some "string",
              description := some "Reply-to email address (overrides default)" }
          , { name := "cc", type := some "string",
              description := some "CC email address or comma-separated list of addresses" }
          , { name := "bcc", type := some "string",
              description := some "BCC email address or comma-separated list of addresses" } ]
        required := some ["to", "templateId", "templateData"] } }

/-- `ResendPlugin.getManifests`: the static manifest list. -/
def getManifests : List Manifest :=
  [sendEmailManifest, sendTemplateEmailManifest]

/-- The tool descriptor built from a manifest. -/
def manifestTool (m : Manifest) : Tool :=
  { name := m.name
    description := m.description
    parameters := convertParameters (some m.parameters) }

/-- JS `Map.set` on an insertion-ordered association list: an existing
key keeps its position and gets the new value, a new key is appended. -/
def mapSet {α : Type} (m : List (String × α)) (k : String) (v : α) :
    List (String × α) :=
  if m.any (fun kv => kv.1 == k) then
    m.map (fun kv => if kv.1 == k then (k, v) else kv)
  else
    m ++ [(k, v)]

/-- JS `Map.delete` on an insertion-ordered association list. -/
def mapDelete {α : Type} (m : List (String × α)) (k : String) :
    List (String × α) :=
  m.filter (fun kv => kv.1 != k)

/-- JS `Map.has`. -/
def mapHas {α : Type} (m : List (String × α)) (k : String) : Bool :=
  m.any (fun kv => kv.1 == k)

/-- The mutable state of a `ResendPlugin` instance: the constructor
configuration, the nullable network client (identified with its
resolved configuration), the tool registry `Map`, and the derived
`config.tools` array. -/
structure PluginState where
  resendConfig : ResendConfigInput
  client : Option ResendConfig
  tools : List (String × Tool)
  configTools : List Tool
deriving DecidableEq, Repr

/-- Does the character list start with the given pattern? -/
def listStartsWith : List Char → List Char → Bool
  | _, [] => true
  | [], _ :: _ => false
  | a :: as, b :: bs => a == b && listStartsWith as bs

/-- Remove the first occurrence of `pat` from a character list. -/
def listDropFirstOcc (pat : List Char) : List Char → List Char
  | [] => []
  | c :: cs =>
    if listStartsWith (c :: cs) pat then (c :: cs).drop pat.length
    else c :: listDropFirstOcc pat cs

/-- JS `String.replace(pat, '')` with a string pattern: removes the
first occurrence of `pat` only. -/
def replaceFirst (s pat : String) : String :=
  String.mk (listDropFirstOcc pat.data s.data)

/-- `ResendPlugin.initializeTools`: rebuild the two manifest tools into
the registry and resync the derived `config.tools` list. -/
def buildTools (s : PluginState) : PluginState :=
  let ts := getManifests.foldl (fun acc m => mapSet acc m.name (manifestTool m)) s.tools
  { s with tools := ts, configTools := ts.map (fun kv => kv.2) }

/-- The `ResendPlugin` constructor with an explicit configuration
object: descriptors are built eagerly, the client stays absent. -/
def mkPlugin (config : ResendConfigInput) : PluginState :=
  buildTools
    { resendConfig := config, client := none, tools := [], configTools := [] }

/-- `ResendPlugin.init`: constructs the client from the stored
configuration, then verifies it is configured.  The client field is
assigned before the verification, so it stays assigned even when `init`
fails; the thrown error is wrapped by the catch block. -/
def pluginInit (s : PluginState) : Except String Unit × PluginState :=
  let cfg := mkResendConfig s.resendConfig
  let s1 := { s with client := some cfg }
  if isConfigured cfg then
    (.ok (), buildTools s1)
  else
    (.error "Resend plugin initialization failed: Error: Resend client is not properly configured. Check your API key.", s1)

/-- `ResendPlugin.registerTool`: `Map.set` plus resync of
`config.tools`. -/
def registerTool (s : PluginState) (t : Tool) : PluginState :=
  let ts := mapSet s.tools t.name t
  { s with tools := ts, configTools := ts.map (fun kv => kv.2) }

/-- `ResendPlugin.removeTool`: `Map.delete` plus resync of
`config.tools`; returns whether an entry was removed. -/
def removeTool (s : PluginState) (n : String) : Bool × PluginState :=
  let ts := mapDelete s.tools n
  (mapHas s.tools n, { s with tools := ts, configTools := ts.map (fun kv => kv.2) })

/-- A loosely typed tool-call parameter record, restricted to the keys
the adapter reads. -/
structure ToolParams where
  «to» : Option StrOrList
  subject : Option String
  html : Option String
  text : Option String
  «from» : Option String
  replyTo : Option String
  cc : Option StrOrList
  bcc : Option StrOrList
  templateId : Option String
  templateData : Option (List (String × String))
deriving DecidableEq, Repr

/-- `ResendPlugin.sendEmail`: builds `EmailMessageOptions` from the
parameter record (attachments and tags are not forwarded), delegates to
the client and re-wraps any failure. -/
def pluginSendEmail (cfg : ResendConfig) (p : ToolParams)
    (pr : ProviderOutcome) : Except String EmailResponse :=
  let options : EmailMessageOptions :=
    { «to» := p.«to», subject := p.subject, html := p.html, text := p.text,
      «from» := p.«from», replyTo := p.replyTo, cc := p.cc, bcc := p.bcc,
      attachments := none, tags := none }
  match sendEmail cfg options pr with
  | .ok v => .ok v
  | .error m => .error ("Failed to send email: " ++ m)

/-- `ResendPlugin.sendTemplateEmail`: builds `TemplateEmailOptions`
(`templateData` defaults to the empty record), delegates to the client
and re-wraps any failure. -/
def pluginSendTemplateEmail (cfg : ResendConfig) (p : ToolParams)
    (pr : ProviderOutcome) : Except String EmailResponse :=
  let options : TemplateEmailOptions :=
    { «to» := p.«to», templateId := p.templateId,
      templateData := p.templateData.getD [],
      «from» := p.«from», replyTo := p.replyTo, cc := p.cc, bcc := p.bcc,
      tags := none }
  match sendTemplateEmail cfg options pr with
  | .ok v => .ok v
  | .error m => .error ("Failed to send template email: " ++ m)

/-- Error message thrown when a tool runs with a null client. -/
def notInitializedMsg : String :=
  "Resend client not initialized. Call init() first."

/-- The execute closure built by `ResendPlugin.initializeTools` for the
tool named `toolName`: the null-client guard, the prefix strip via
`String.replace`, and the dispatch switch. -/
def executeTool (s : PluginState) (toolName : String) (p : ToolParams)
    (pr : ProviderOutcome) : Except String EmailResponse :=
  match s.client with
  | none => .error notInitializedMsg
  | some cfg =>
    let methodName := replaceFirst toolName "resend_"
    if methodName == "send_email" then
      pluginSendEmail cfg p pr
    else if methodName == "send_template_email" then
      pluginSendTemplateEmail cfg p pr
    else
      .error ("Unknown method: " ++ methodName)


/-! ## Helper lemmas and concrete fixtures -/

/-- A fully populated configuration with defaults for both addresses. -/
def cfgFull : ResendConfig :=
  { apiKey := some "key123", defaultFrom := some "default@x.com",
    defaultReplyTo := some "reply@x.com", requestTimeout := some 10000 }

/-- A configuration with no API key. -/
def cfgNoKey : ResendConfig :=
  { apiKey := none, defaultFrom := some "default@x.com",
    defaultReplyTo := none, requestTimeout := some 10000 }

/-- Raw-send options with explicit sender and reply-to. -/
def optsExplicit : EmailMessageOptions :=
  { «to» := some (.str "a@b.com"), subject := some "Hi",
    html := some "<p>hi</p>", text := none, «from» := some "me@x.com",
    replyTo := some "rt@x.com", cc := some (.str "c@x.com"), bcc := none,
    attachments := none, tags := none }

/-- Raw-send options with neither html nor text. -/
def optsNoBody : EmailMessageOptions :=
  { «to» := some (.str "a@b.com"), subject := some "Hi",
    html := none, text := none, «from» := none, replyTo := none,
    cc := none, bcc := none, attachments := none, tags := none }

/-- Raw-send options with html but no recipient and no subject. -/
def optsNoRecipient : EmailMessageOptions :=
  { «to» := none, subject := none,
    html := some "<p>hi</p>", text := none, «from» := none, replyTo := none,
    cc := none, bcc := none, attachments := none, tags := none }

/-- Template-send options for scenario checks. -/
def optsTemplate : TemplateEmailOptions :=
  { «to» := some (.str "a@b.com"), templateId := some "t1",
    templateData := [("name", "X")], «from» := none, replyTo := none,
    cc := none, bcc := none, tags := none }

/-- An all-absent constructor configuration object (no API key). -/
def emptyConfigInput : ResendConfigInput :=
  { apiKey := none, defaultFrom := none, defaultReplyTo := none,
    requestTimeout := none }

/-- The plugin state after construction with no key and a failed
`init` attempt: `init` threw, yet the client field was already set. -/
def failedInitState : PluginState :=
  (pluginInit (mkPlugin emptyConfigInput)).2

/-- Valid raw-send parameters for a tool call. -/
def someParams : ToolParams :=
  { «to» := some (.str "a@b.com"), subject := some "Hi",
    html := some "<p>hi</p>", text := none, «from» := none,
    replyTo := none, cc := none, bcc := none, templateId := none,
    templateData := none }

/-- The descriptor entry dictated by the claim's words (spec §4.2), for
comparison with `convertParameters`: type kept when it is one of the
five permitted kinds and `"string"` otherwise, description defaulted to
the empty string, required flag from membership in the `required`
list. -/
def convSpecEntry (req : Option (List String)) (pr : ManifestProperty) :
    ToolParameterSchema :=
  { name := pr.name
    type :=
      match pr.type with
      | some t =>
        if t = "string" ∨ t = "number" ∨ t = "boolean" ∨ t = "object" ∨ t = "array"
        then t else "string"
      | none => "string"
    description := pr.description.getD ""
    required := decide (pr.name ∈ req.getD []) }

/-- A tool descriptor already present under the name `t`. -/
def toolOld : Tool :=
  { name := "t", description := "old descriptor", parameters := [] }

/-- A replacement descriptor with the same name. -/
def toolNew : Tool :=
  { name := "t", description := "new descriptor", parameters := [] }

/-- A registry state that already holds a tool named `t`. -/
def regState : PluginState :=
  { resendConfig := emptyConfigInput, client := none,
    tools := [("t", toolOld)], configTools := [toolOld] }

theorem jsOr_of_truthy {a b : Option String} (h : jsTruthyStr a = true) :
    jsOr a b = a := by
  simp [jsOr, h]

theorem jsOr_of_falsy {a b : Option String} (h : jsTruthyStr a = false) :
    jsOr a b = b := by
  simp [jsOr, h]

/-- Case analysis of the post-network response handling. -/
theorem handleProviderResponse_eq (pr : ProviderOutcome) (msg : String) :
    handleProviderResponse pr msg =
      match pr with
      | .error m => .error m
      | .ok none => .error msg
      | .ok (some { data := none }) => .error msg
      | .ok (some { data := some d }) =>
          if d.id = "" then .error msg
          else .ok { id := d.id, success := true } := by
  rcases pr with m | resp
  · rfl
  · rcases resp with _ | ⟨_ | d⟩
    · rfl
    · rfl
    · by_cases hi : d.id = "" <;> simp [handleProviderResponse, hasUsableId, hi]

/-! ## Claims -/

/-- C1: on a raw send, the outbound payload's `from` is the explicit
`from` when a (truthy) one is given and the configured default
otherwise; the reply-to value travels under the wire field name
`reply_to` and mirrors the input `replyTo` (or the configured default)
— the options shape has no `reply_to` input to read from; `cc`, `bcc`,
`attachments` and `tags` are passed through unchanged. -/
theorem C1_payload_field_mapping (cfg : ResendConfig) (o : EmailMessageOptions) :
    (jsTruthyStr o.«from» = true →
      (formatEmailOptions cfg o).lookup "from" = some (optStrVal o.«from»)) ∧
    (jsTruthyStr o.«from» = false →
      (formatEmailOptions cfg o).lookup "from" = some (optStrVal cfg.defaultFrom)) ∧
    (jsTruthyStr o.replyTo = true →
      (formatEmailOptions cfg o).lookup "reply_to" = some (optStrVal o.replyTo)) ∧
    (jsTruthyStr o.replyTo = false →
      (formatEmailOptions cfg o).lookup "reply_to" = some (optStrVal cfg.defaultReplyTo)) ∧
    (formatEmailOptions cfg o).lookup "cc" = some (optSLVal o.cc) ∧
    (formatEmailOptions cfg o).lookup "bcc" = some (optSLVal o.bcc) ∧
    (formatEmailOptions cfg o).lookup "attachments" = some (attVal o.attachments) ∧
    (formatEmailOptions cfg o).lookup "tags" = some (tagVal o.tags) := by
  have hfrom : (formatEmailOptions cfg o).lookup "from"
      = some (optStrVal (jsOr o.«from» cfg.defaultFrom)) := rfl
  have hreply : (formatEmailOptions cfg o).lookup "reply_to"
      = some (optStrVal (jsOr o.replyTo cfg.defaultReplyTo)) := rfl
  refine ⟨?_, ?_, ?_, ?_, rfl, rfl, rfl, rfl⟩
  · intro h; rw [hfrom, jsOr_of_truthy h]
  · intro h; rw [hfrom, jsOr_of_falsy h]
  · intro h; rw [hreply, jsOr_of_truthy h]
  · intro h; rw [hreply, jsOr_of_falsy h]

/-- Witness for C1 at a concrete configuration and option record. -/
theorem C1_payload_field_mapping_witness :
    (formatEmailOptions cfgFull optsExplicit).lookup "from"
      = some (optStrVal optsExplicit.«from») ∧
    (formatEmailOptions cfgFull optsExplicit).lookup "reply_to"
      = some (optStrVal optsExplicit.replyTo) ∧
    (formatEmailOptions cfgNoKey optsNoBody).lookup "from"
      = some (optStrVal cfgNoKey.defaultFrom) :=
  ⟨(C1_payload_field_mapping cfgFull optsExplicit).1 (by decide),
   (C1_payload_field_mapping cfgFull optsExplicit).2.2.1 (by decide),
   (C1_payload_field_mapping cfgNoKey optsNoBody).2.1 (by decide)⟩

/-- C2: `isConfigured` is true iff a non-empty credential is present
(it is a pure function of the configuration), and on a gateway without
one both send operations fail with the configuration error while their
pre-network phase already errors, so no outbound call is attempted. -/
theorem C2_unconfigured_fails_fast (cfg : ResendConfig)
    (o : EmailMessageOptions) (ot : TemplateEmailOptions)
    (pr pr' : ProviderOutcome) :
    (isConfigured cfg = true ↔ ∃ s, cfg.apiKey = some s ∧ s ≠ "") ∧
    (isConfigured cfg = false →
      sendEmailRequest cfg o = .error apiKeyMissingMsg ∧
      sendEmail cfg o pr = .error ("Failed to send email: " ++ apiKeyMissingMsg) ∧
      sendTemplateEmailRequest cfg ot = .error apiKeyMissingMsg ∧
      sendTemplateEmail cfg ot pr'
        = .error ("Failed to send template email: " ++ apiKeyMissingMsg)) := by
  constructor
  · cases h : cfg.apiKey <;> simp [isConfigured, jsTruthyStr, h]
  · intro h
    have h1 : sendEmailRequest cfg o = .error apiKeyMissingMsg := by
      simp [sendEmailRequest, h]
    have h2 : sendTemplateEmailRequest cfg ot = .error apiKeyMissingMsg := by
      simp [sendTemplateEmailRequest, h]
    exact ⟨h1, by simp [sendEmail, h1], h2, by simp [sendTemplateEmail, h2]⟩

/-- Witness for C2 at a keyless configuration. -/
theorem C2_unconfigured_fails_fast_witness :
    isConfigured cfgNoKey = false ∧
    sendEmail cfgNoKey optsExplicit (.ok none)
      = .error ("Failed to send email: " ++ apiKeyMissingMsg) :=
  ⟨by decide,
   ((C2_unconfigured_fails_fast cfgNoKey optsExplicit optsTemplate
      (.ok none) (.ok none)).2 (by decide)).2.1⟩

/-- C3 counterexample: on an unconfigured gateway, a raw send with
neither html nor text fails with the configuration error, not the
validation error the claim requires for every such call. -/
theorem C3_counterexample :
    sendEmail cfgNoKey optsNoBody (.ok none)
      = .error ("Failed to send email: " ++ apiKeyMissingMsg) ∧
    "Failed to send email: " ++ apiKeyMissingMsg
      ≠ "Failed to send email: " ++ bodyMissingMsg :=
  ⟨rfl, by decide⟩

/-- C3 (amended): on a configured gateway, a raw send with neither html
nor text fails with the validation error in the pre-network phase; on
an unconfigured gateway it fails even earlier with the configuration
error — in both cases before any outbound call. -/
theorem C3_missing_body_fails_before_network (cfg : ResendConfig)
    (o : EmailMessageOptions) (pr : ProviderOutcome)
    (hh : jsTruthyStr o.html = false) (ht : jsTruthyStr o.text = false) :
    (isConfigured cfg = true →
      sendEmailRequest cfg o = .error bodyMissingMsg ∧
      sendEmail cfg o pr = .error ("Failed to send email: " ++ bodyMissingMsg)) ∧
    (isConfigured cfg = false →
      sendEmailRequest cfg o = .error apiKeyMissingMsg ∧
      sendEmail cfg o pr = .error ("Failed to send email: " ++ apiKeyMissingMsg)) := by
  constructor
  · intro hc
    have h1 : sendEmailRequest cfg o = .error bodyMissingMsg := by
      simp [sendEmailRequest, hc, hh, ht]
    exact ⟨h1, by simp [sendEmail, h1]⟩
  · intro hc
    have h1 : sendEmailRequest cfg o = .error apiKeyMissingMsg := by
      simp [sendEmailRequest, hc]
    exact ⟨h1, by simp [sendEmail, h1]⟩

/-- Witness for the amended C3 on a configured gateway. -/
theorem C3_missing_body_fails_before_network_witness :
    sendEmail cfgFull optsNoBody (.ok none)
      = .error ("Failed to send email: " ++ bodyMissingMsg) :=
  ((C3_missing_body_fails_before_network cfgFull optsNoBody (.ok none)
      (by decide) (by decide)).1 (by decide)).2

/-- C4: on a configured gateway with a valid body, a provider response
without a usable id yields the delivery error; a transport failure is
re-raised with its original message behind the normalizing prefix; any
error the caller sees carries the `Failed to send email:` prefix (one
normalized shape, never a provider-specific type); and a successful
result implies the provider issued a non-empty id. -/
theorem C4_error_normalization (cfg : ResendConfig) (o : EmailMessageOptions)
    (pr : ProviderOutcome) (hc : isConfigured cfg = true)
    (hb : jsTruthyStr o.html = true ∨ jsTruthyStr o.text = true) :
    (∀ resp, pr = .ok resp → hasUsableId resp = false →
      sendEmail cfg o pr = .error ("Failed to send email: " ++ noResponseMsg)) ∧
    (∀ m, pr = .error m →
      sendEmail cfg o pr = .error ("Failed to send email: " ++ m)) ∧
    (∀ e, sendEmail cfg o pr = .error e →
      ∃ m, e = "Failed to send email: " ++ m) ∧
    (∀ r, sendEmail cfg o pr = .ok r →
      r.success = true ∧ pr = .ok (some { data := some { id := r.id } }) ∧ r.id ≠ "") := by
  have hreq : sendEmailRequest cfg o = .ok (formatEmailOptions cfg o) := by
    rcases hb with h | h <;> simp [sendEmailRequest, hc, h]
  have hErr : ∀ m, sendEmail cfg o (.error m)
      = .error ("Failed to send email: " ++ m) := fun m => by
    simp [sendEmail, hreq, handleProviderResponse]
  have hNone : sendEmail cfg o (.ok none)
      = .error ("Failed to send email: " ++ noResponseMsg) := by
    simp [sendEmail, hreq, handleProviderResponse, hasUsableId]
  have hDNone : sendEmail cfg o (.ok (some { data := none }))
      = .error ("Failed to send email: " ++ noResponseMsg) := by
    simp [sendEmail, hreq, handleProviderResponse, hasUsableId]
  have hD : ∀ d : ProviderData, sendEmail cfg o (.ok (some { data := some d }))
      = if d.id = "" then .error ("Failed to send email: " ++ noResponseMsg)
        else .ok { id := d.id, success := true } := fun d => by
    by_cases hi : d.id = "" <;>
      simp [sendEmail, hreq, handleProviderResponse, hasUsableId, hi]
  refine ⟨?_, ?_, ?_, ?_⟩
  · intro resp hpr hid
    subst hpr
    rcases resp with _ | ⟨_ | d⟩
    · exact hNone
    · exact hDNone
    · have hid' : d.id = "" := by
        simpa [hasUsableId] using hid
      rw [hD d, if_pos hid']
  · intro m hpr; subst hpr; exact hErr m
  · intro e he
    rcases pr with m | _ | ⟨_ | d⟩
    · rw [hErr m] at he
      exact ⟨m, by simpa using he.symm⟩
    · rw [hNone] at he
      exact ⟨noResponseMsg, by simpa using he.symm⟩
    · rw [hDNone] at he
      exact ⟨noResponseMsg, by simpa using he.symm⟩
    · rw [hD d] at he
      by_cases hi : d.id = ""
      · rw [if_pos hi] at he
        exact ⟨noResponseMsg, by simpa using he.symm⟩
      · rw [if_neg hi] at he
        simp at he
  · intro r hr
    rcases pr with m | _ | ⟨_ | d⟩
    · rw [hErr m] at hr; simp at hr
    · rw [hNone] at hr; simp at hr
    · rw [hDNone] at hr; simp at hr
    · rw [hD d] at hr
      by_cases hi : d.id = ""
      · rw [if_pos hi] at hr; simp at hr
      · rw [if_neg hi] at hr
        have hrr : ({ id := d.id, success := true } : EmailResponse) = r := by
          simpa using hr
        subst hrr
        exact ⟨rfl, rfl, hi⟩

/-- Witness for C4: a transport failure and a no-id response at
concrete inputs. -/
theorem C4_error_normalization_witness :
    sendEmail cfgFull optsExplicit (.error "connect ECONNREFUSED")
      = .error ("Failed to send email: " ++ "connect ECONNREFUSED") ∧
    sendEmail cfgFull optsExplicit (.ok none)
      = .error ("Failed to send email: " ++ noResponseMsg) :=
  ⟨(C4_error_normalization cfgFull optsExplicit (.error "connect ECONNREFUSED")
      (by decide) (.inl (by decide))).2.1 "connect ECONNREFUSED" rfl,
   (C4_error_normalization cfgFull optsExplicit (.ok none)
      (by decide) (.inl (by decide))).1 none rfl (by decide)⟩

/-- C5: on a configured gateway with a template id present (a non-empty
id, which is what the code's presence check accepts), the templated
send reaches the network phase with a payload that carries the template
identifier under `template` and the merge data under `data`, and that
has no `subject`, `html` or `text` field at all. -/
theorem C5_template_payload_shape (cfg : ResendConfig)
    (o : TemplateEmailOptions) (hc : isConfigured cfg = true)
    (ht : jsTruthyStr o.templateId = true) :
    sendTemplateEmailRequest cfg o = .ok (formatTemplateOptions cfg o) ∧
    (∃ t, o.templateId = some t ∧ t ≠ "" ∧
      (formatTemplateOptions cfg o).lookup "template" = some (.str t)) ∧
    (formatTemplateOptions cfg o).lookup "data" = some (.record o.templateData) ∧
    (formatTemplateOptions cfg o).lookup "subject" = none ∧
    (formatTemplateOptions cfg o).lookup "html" = none ∧
    (formatTemplateOptions cfg o).lookup "text" = none := by
  refine ⟨by simp [sendTemplateEmailRequest, hc, ht], ?_, rfl, rfl, rfl, rfl⟩
  rcases hti : o.templateId with _ | t
  · rw [hti] at ht; simp [jsTruthyStr] at ht
  · refine ⟨t, rfl, ?_, ?_⟩
    · rw [hti] at ht; simpa [jsTruthyStr] using ht
    · have : (formatTemplateOptions cfg o).lookup "template"
          = some (optStrVal o.templateId) := rfl
      rw [this, hti]; rfl

/-- Witness for C5 at the scenario-4 inputs. -/
theorem C5_template_payload_shape_witness :
    (formatTemplateOptions cfgFull optsTemplate).lookup "template"
      = some (.str "t1") ∧
    (formatTemplateOptions cfgFull optsTemplate).lookup "data"
      = some (.record [("name", "X")]) ∧
    (formatTemplateOptions cfgFull optsTemplate).lookup "subject" = none := by
  obtain ⟨-, ⟨t, hts, -, hl⟩, hdata, hsub, -, -⟩ :=
    C5_template_payload_shape cfgFull optsTemplate (by decide) (by decide)
  have htt : t = "t1" := by
    have : some t = some "t1" := by rw [← hts]; rfl
    exact (Option.some.injEq _ _).mp this
  subst htt
  exact ⟨hl, hdata, hsub⟩

/-- C6 counterexample: construct the plugin without a credential and
call `init`, which fails, so the Initialized state (client constructed
and verified configured) is never reached; executing a tool afterwards
does not fail with the not-initialized error — `init` had already
assigned the client before verifying it, so the execution reaches the
gateway and surfaces its configuration error instead. -/
theorem C6_counterexample :
    (pluginInit (mkPlugin emptyConfigInput)).1
      = .error "Resend plugin initialization failed: Error: Resend client is not properly configured. Check your API key." ∧
    isConfigured (mkResendConfig emptyConfigInput) = false ∧
    executeTool failedInitState "resend_send_email" someParams (.ok none)
      = .error ("Failed to send email: "
          ++ ("Failed to send email: " ++ apiKeyMissingMsg)) ∧
    ("Failed to send email: " ++ ("Failed to send email: " ++ apiKeyMissingMsg))
      ≠ notInitializedMsg :=
  ⟨rfl, rfl, rfl, by decide⟩

/-- C6 (amended): a tool executed while the client has never been
constructed (the field is still null) fails with the deterministic
not-initialized error without reaching the gateway; `init` always
assigns the client built from the stored configuration — even when it
then fails verification — so after a failed `init` executions surface
the gateway's configuration error instead; the stored configuration is
immutable and no operation (re-`init`, register, remove) ever unsets or
changes an assigned client, so Initialized is never left once reached. -/
theorem C6_lifecycle (s : PluginState) (name : String) (p : ToolParams)
    (pr : ProviderOutcome) (t : Tool) (n : String) :
    (s.client = none → executeTool s name p pr = .error notInitializedMsg) ∧
    (mkPlugin s.resendConfig).client = none ∧
    (pluginInit s).2.client = some (mkResendConfig s.resendConfig) ∧
    (pluginInit s).2.resendConfig = s.resendConfig ∧
    (registerTool s t).client = s.client ∧
    ((removeTool s n).2).client = s.client ∧
    (pluginInit ((pluginInit s).2)).2.client = (pluginInit s).2.client := by
  have hinit : ∀ s' : PluginState,
      (pluginInit s').2.client = some (mkResendConfig s'.resendConfig) ∧
      (pluginInit s').2.resendConfig = s'.resendConfig := by
    intro s'
    by_cases hc : isConfigured (mkResendConfig s'.resendConfig) <;>
      simp [pluginInit, buildTools, hc]
  refine ⟨?_, ?_, (hinit s).1, (hinit s).2, ?_, ?_, ?_⟩
  · intro h; simp [executeTool, h]
  · simp [mkPlugin, buildTools]
  · simp [registerTool]
  · simp [removeTool]
  · rw [(hinit ((pluginInit s).2)).1, (hinit s).2, (hinit s).1]

/-- Witness for C6 (amended): a freshly constructed plugin has a null
client and executing a tool on it yields the not-initialized error. -/
theorem C6_lifecycle_witness :
    executeTool (mkPlugin emptyConfigInput) "resend_send_email" someParams
      (.ok none) = .error notInitializedMsg :=
  (C6_lifecycle (mkPlugin emptyConfigInput) "resend_send_email" someParams
    (.ok none) { name := "x", description := "", parameters := [] } "x").1
    (by decide)

/-- C7 counterexample: a configured raw send with html present but no
recipient and no subject sails through the pre-network phase and, given
a provider id, even succeeds — there is no runtime validation error for
a missing `to` or `subject`. -/
theorem C7_counterexample :
    optsNoRecipient.«to» = none ∧ optsNoRecipient.subject = none ∧
    sendEmailRequest cfgFull optsNoRecipient
      = .ok (formatEmailOptions cfgFull optsNoRecipient) ∧
    sendEmail cfgFull optsNoRecipient
      (.ok (some { data := some { id := "abc123" } }))
      = .ok { id := "abc123", success := true } :=
  ⟨rfl, rfl, rfl, rfl⟩

/-- C7 (amended): the raw-send path performs no runtime validation of
`to` or `subject`: on a configured gateway with html or text present,
the pre-network phase always produces the outbound payload — carrying
whatever `to`/`subject` values were supplied, possibly undefined —
so a missing recipient or subject never causes a validation error (the
requirement lives only in the static types and the manifest `required`
list). -/
theorem C7_no_recipient_subject_validation (cfg : ResendConfig)
    (o : EmailMessageOptions) (hc : isConfigured cfg = true)
    (hb : jsTruthyStr o.html = true ∨ jsTruthyStr o.text = true) :
    sendEmailRequest cfg o = .ok (formatEmailOptions cfg o) ∧
    (formatEmailOptions cfg o).lookup "to" = some (optSLVal o.«to») ∧
    (formatEmailOptions cfg o).lookup "subject" = some (optStrVal o.subject) := by
  refine ⟨?_, rfl, rfl⟩
  rcases hb with h | h <;> simp [sendEmailRequest, hc, h]

/-- Witness for the amended C7 at a call with no recipient. -/
theorem C7_no_recipient_subject_validation_witness :
    sendEmailRequest cfgFull optsNoRecipient
      = .ok (formatEmailOptions cfgFull optsNoRecipient) :=
  (C7_no_recipient_subject_validation cfgFull optsNoRecipient (by decide)
    (.inl (by decide))).1

theorem contains_five_iff (t : String) :
    (["string", "number", "boolean", "object", "array"].contains t = true)
      ↔ (t = "string" ∨ t = "number" ∨ t = "boolean" ∨ t = "object" ∨ t = "array") := by
  simp [List.contains]

theorem contains_eq_decide_mem (r : List String) (x : String) :
    r.contains x = decide (x ∈ r) := by
  induction r with
  | nil => rfl
  | cons a as ih =>
    by_cases hx : x = a
    · subst hx; simp [List.contains, List.elem]
    · have hbeq : (x == a) = false := by simp [hx]
      simp only [List.contains, List.elem, hbeq] at *
      rw [ih]
      simp [hx]

/-- Each converted entry equals the entry the spec describes. -/
theorem convertParameter_eq (req : Option (List String)) (pr : ManifestProperty) :
    convertParameter req pr = convSpecEntry req pr := by
  obtain ⟨pname, ptype, pdesc⟩ := pr
  unfold convertParameter convSpecEntry
  congr 1
  · cases ptype with
    | none => rfl
    | some t =>
      simp only []
      by_cases h : t = "string" ∨ t = "number" ∨ t = "boolean" ∨ t = "object" ∨ t = "array"
      · rw [if_pos ((contains_five_iff t).mpr h), if_pos h]
      · rw [if_neg (fun hc => h ((contains_five_iff t).mp hc)), if_neg h]
  · cases pdesc <;> rfl
  · cases req with
    | none => rfl
    | some r => exact contains_eq_decide_mem r pname

/-- C8: parameter-schema conversion produces exactly one descriptor per
property, equal componentwise to the entry the spec describes: the
declared type when it is one of the five permitted kinds and `"string"`
otherwise, the declared description or the empty string, and a required
flag that is true iff the name is in the manifest's `required` list. -/
theorem C8_convert_parameters (mtype : String) (props : List ManifestProperty)
    (req : Option (List String)) :
    convertParameters (some { type := mtype, properties := some props, required := req })
      = props.map (convSpecEntry req) ∧
    (convertParameters (some { type := mtype, properties := some props, required := req })).length
      = props.length := by
  have hmap : convertParameters
      (some { type := mtype, properties := some props, required := req })
      = props.map (convSpecEntry req) := by
    show props.map (convertParameter req) = props.map (convSpecEntry req)
    exact List.map_congr_left (fun pr _ => convertParameter_eq req pr)
  exact ⟨hmap, by rw [hmap, List.length_map]⟩

/-- C9 counterexample: when the registry already holds a tool of the
same name, registering overwrites it, so removing the name afterwards
empties the registry instead of restoring the prior contents. -/
theorem C9_counterexample :
    regState.tools = [("t", toolOld)] ∧
    ((removeTool (registerTool regState toolNew) "t").2).tools = [] ∧
    ([] : List (String × Tool)) ≠ [("t", toolOld)] :=
  ⟨rfl, rfl, by decide⟩

theorem mapSet_fresh {α : Type} (m : List (String × α)) (k : String) (v : α)
    (h : ∀ kv ∈ m, kv.1 ≠ k) : mapSet m k v = m ++ [(k, v)] := by
  have hany : m.any (fun kv => kv.1 == k) = false := by
    rw [List.any_eq_false]
    intro kv hkv
    simpa using h kv hkv
  simp [mapSet, hany]

theorem mapDelete_restore {α : Type} (m : List (String × α)) (k : String) (v : α)
    (h : ∀ kv ∈ m, kv.1 ≠ k) : mapDelete (m ++ [(k, v)]) k = m := by
  rw [mapDelete, List.filter_append]
  have h1 : m.filter (fun kv => kv.1 != k) = m := by
    rw [List.filter_eq_self]
    intro kv hkv
    simpa using h kv hkv
  have h2 : [(k, v)].filter (fun kv : String × α => kv.1 != k) = [] := by
    simp
  rw [h1, h2, List.append_nil]

/-- C9 (amended): registering a tool whose name is not already in the
registry and then removing it by that name restores the registry (and
the derived list) to the prior contents; and each of the two mutation
operations leaves the derived `config.tools` list in sync with the
registry values.  When the name is already present, register overwrites
the old entry and remove then drops it, so the prior contents are not
restored (see the counterexample). -/
theorem C9_register_remove_roundtrip (s : PluginState) (t : Tool)
    (h : ∀ kv ∈ s.tools, kv.1 ≠ t.name) :
    ((removeTool (registerTool s t) t.name).2).tools = s.tools ∧
    ((removeTool (registerTool s t) t.name).2).configTools
      = s.tools.map (fun kv => kv.2) ∧
    (∀ t', (registerTool s t').configTools
      = ((registerTool s t').tools).map (fun kv => kv.2)) ∧
    (∀ n, ((removeTool s n).2).configTools
      = (((removeTool s n).2).tools).map (fun kv => kv.2)) := by
  have hreg : (registerTool s t).tools = s.tools ++ [(t.name, t)] := by
    simp [registerTool, mapSet_fresh s.tools t.name t h]
  have hdel : ((removeTool (registerTool s t) t.name).2).tools = s.tools := by
    simp only [removeTool, hreg]
    exact mapDelete_restore s.tools t.name t h
  refine ⟨hdel, ?_, fun t' => rfl, fun n => rfl⟩
  show (mapDelete (registerTool s t).tools t.name).map (fun kv => kv.2)
    = s.tools.map (fun kv => kv.2)
  rw [hreg, mapDelete_restore s.tools t.name t h]

/-- Witness for the amended C9: register a fresh name on a registry
that holds one tool, then remove it. -/
theorem C9_register_remove_roundtrip_witness :
    ((removeTool (registerTool regState
        { name := "u", description := "other", parameters := [] }) "u").2).tools
      = regState.tools :=
  (C9_register_remove_roundtrip regState
    { name := "u", description := "other", parameters := [] }
    (by decide)).1

/-- C10: with the `defaultFrom` key absent from the constructor
configuration, the resolved default sender is the hard-coded
`onboarding@resend.dev` (and with `requestTimeout` absent the timeout
resolves to 10000 ms), so a send without a truthy explicit `from`
carries the hard-coded address; a `defaultFrom` key present with an
undefined value overrides the hard-coded default via object spread. -/
theorem C10_hardcoded_default_from (ci : ResendConfigInput)
    (o : EmailMessageOptions) :
    (ci.defaultFrom = none →
      (mkResendConfig ci).defaultFrom = some "onboarding@resend.dev") ∧
    (ci.requestTimeout = none →
      (mkResendConfig ci).requestTimeout = some 10000) ∧
    (ci.defaultFrom = none → jsTruthyStr o.«from» = false →
      (formatEmailOptions (mkResendConfig ci) o).lookup "from"
        = some (.str "onboarding@resend.dev")) ∧
    (ci.defaultFrom = some none → (mkResendConfig ci).defaultFrom = none) := by
  refine ⟨?_, ?_, ?_, ?_⟩
  · intro h; simp [mkResendConfig, spreadField, h]
  · intro h; simp [mkResendConfig, spreadField, h]
  · intro h hf
    have hfrom : (formatEmailOptions (mkResendConfig ci) o).lookup "from"
        = some (optStrVal (jsOr o.«from» (mkResendConfig ci).defaultFrom)) := rfl
    rw [hfrom, jsOr_of_falsy hf]
    simp [mkResendConfig, spreadField, h, optStrVal]
  · intro h; simp [mkResendConfig, spreadField, h]

/-- Witness for C10: the all-absent configuration object and an
explicitly-undefined `defaultFrom`. -/
theorem C10_hardcoded_default_from_witness :
    (mkResendConfig emptyConfigInput).defaultFrom = some "onboarding@resend.dev" ∧
    (mkResendConfig emptyConfigInput).requestTimeout = some 10000 ∧
    (formatEmailOptions (mkResendConfig emptyConfigInput) optsNoBody).lookup "from"
      = some (.str "onboarding@resend.dev") ∧
    (mkResendConfig { emptyConfigInput with defaultFrom := some none }).defaultFrom
      = none :=
  ⟨(C10_hardcoded_default_from emptyConfigInput optsNoBody).1 rfl,
   (C10_hardcoded_default_from emptyConfigInput optsNoBody).2.1 rfl,
   (C10_hardcoded_default_from emptyConfigInput optsNoBody).2.2.1 rfl (by decide),
   (C10_hardcoded_default_from { emptyConfigInput with defaultFrom := some none }
      optsNoBody).2.2.2 rfl⟩
